import Mathlib

/-!
Verification of the lexicon-driven signal-extraction pipeline of the
Saudi financial-intelligence repository.

The Python sources are shallowly embedded:
* texts are `List Char` (Python strings are sequences of code points);
* Python floats are modelled as `ℚ` (all arithmetic here is addition,
  multiplication by small decimal constants, and division);
* `str.lower` / `str.upper` / `str.title` are modelled by their action on
  the scripts that occur in the repository's data (ASCII case-folding;
  Arabic has no case), and the regex word class `\w` by ASCII
  alphanumerics, underscore, Arabic letters and Arabic-Indic digits;
* the external spaCy named-entity recognizer and the regex engine used for
  the one currency pattern are out-of-scope external capabilities and are
  passed in as oracle parameters (`ner`, `sar`);
* code that can raise on a non-string argument is wrapped in `Except`,
  with the input modelled by `PyInput` (a string, or any non-string value).
-/

/-! ## Generic Python string helpers -/

/-- ASCII case folding, the restriction of Python `str.lower` to the scripts
used by the repository (ASCII and Arabic; Arabic has no case). -/
def pyLowerChar (c : Char) : Char :=
  if 'A' ≤ c ∧ c ≤ 'Z' then Char.ofNat (c.toNat + 32) else c

def pyLowerL (l : List Char) : List Char := l.map pyLowerChar

def pyLowerS (s : String) : String := String.mk (pyLowerL s.toList)

/-- ASCII upper-casing, the restriction of Python `str.upper` likewise. -/
def pyUpperChar (c : Char) : Char :=
  if 'a' ≤ c ∧ c ≤ 'z' then Char.ofNat (c.toNat - 32) else c

def pyUpperS (s : String) : String := String.mk (s.toList.map pyUpperChar)

/-- Python `str.title`, tracking whether the previous character was a cased
letter (only ASCII letters are cased in the repository's keyword tables). -/
def pyTitleAux : Bool → List Char → List Char
  | _, [] => []
  | prevCased, c :: cs =>
      (if c.isAlpha then (if prevCased then pyLowerChar c else pyUpperChar c) else c)
        :: pyTitleAux c.isAlpha cs

def pyTitleS (s : String) : String := String.mk (pyTitleAux false s.toList)

/-- Python `str.strip`: remove leading and trailing whitespace. -/
def pyStripL (l : List Char) : List Char :=
  ((l.dropWhile Char.isWhitespace).reverse.dropWhile Char.isWhitespace).reverse

def pyStripS (s : String) : String := String.mk (pyStripL s.toList)

/-- Python `str.split()` with no argument: split on whitespace runs,
dropping empty chunks. -/
def pySplitAux : List Char → List Char → List (List Char)
  | [], acc => if acc.isEmpty then [] else [acc.reverse]
  | c :: cs, acc =>
      if c.isWhitespace then
        if acc.isEmpty then pySplitAux cs [] else acc.reverse :: pySplitAux cs []
      else pySplitAux cs (c :: acc)

def pySplit (l : List Char) : List (List Char) := pySplitAux l []

/-- `' '.join(words)`. -/
def spaceJoin : List (List Char) → List Char
  | [] => []
  | [w] => w
  | w :: ws => w ++ ' ' :: spaceJoin ws

/-- Python's `kw in s` substring containment test. -/
def substrB (kw l : List Char) : Bool := l.tails.any (fun t => kw.isPrefixOf t)

/-- The regex word class `\w`, restricted to the scripts occurring in the
repository's data: ASCII alphanumerics, underscore, Arabic letters
(U+0621–U+064A) and Arabic-Indic digits (U+0660–U+0669). Arabic
punctuation and diacritics are not word characters, as in Python. -/
def isWordChar (c : Char) : Bool :=
  c.isAlphanum || c == '_' ||
    (0x621 ≤ c.toNat && c.toNat ≤ 0x64A) || (0x660 ≤ c.toNat && c.toNat ≤ 0x669)

def wordCharAt (l : List Char) (i : Nat) : Bool :=
  match l.get? i with
  | some c => isWordChar c
  | none => false

/-- Does `term` occur in `l` starting at index `i`? -/
def matchesAt (term l : List Char) (i : Nat) : Bool := term.isPrefixOf (l.drop i)

/-- `\b term \b` matches at index `i` (for terms that, as in the lexicons,
begin and end with word characters): the occurrence is there and neither
neighbour is a word character. -/
def boundMatchB (term l : List Char) (i : Nat) : Bool :=
  matchesAt term l i && (i == 0 || !wordCharAt l (i - 1)) &&
    !wordCharAt l (i + term.length)

/-- Linear scan for the least index `≥ i` (within `fuel` steps) satisfying
`p`; models `re.search` returning the first match. -/
def searchFrom (p : Nat → Bool) : Nat → Nat → Option Nat
  | _, 0 => none
  | i, fuel + 1 => if p i then some i else searchFrom p (i + 1) fuel

/-- `re.search(r'\b' + re.escape(term) + r'\b', l)`: index of the first
word-boundary-anchored occurrence of `term` in `l`. -/
def findBoundaryMatch (term l : List Char) : Option Nat :=
  searchFrom (fun i => boundMatchB term l i) 0 (l.length + 1)

/-- Python `round(q, 3)`, on the rational model (Python's float banker's
rounding differs only at exact half-thousandths, which do not arise here). -/
def pyRound3 (q : ℚ) : ℚ := (round (q * 1000) : ℚ) / 1000

/-! ## Sentiment analyzer (`src/ml/enhanced_arabic_analyser.py`) -/

inductive Senti | positive | negative | neutral
deriving DecidableEq, Repr

/-- The fixed first-seen order of the `scores` dict keys:
`positive, negative, neutral`. -/
def Senti.idx : Senti → Nat
  | .positive => 0
  | .negative => 1
  | .neutral => 2

def Senti.str : Senti → String
  | .positive => "positive"
  | .negative => "negative"
  | .neutral => "neutral"

def sentiOfString (s : String) : Option Senti :=
  if s = "positive" then some .positive
  else if s = "negative" then some .negative
  else if s = "neutral" then some .neutral
  else none

inductive LexType | financial | islamic
deriving DecidableEq, Repr

structure Entry where
  lex : LexType
  senti : Senti
  term : String
  weight : ℚ
deriving DecidableEq, Repr

set_option maxHeartbeats 2000000 in
/-- `financial_lexicon` and `islamic_terms`, flattened in the exact
iteration order of the source (`all_lexicons` = financial then islamic;
inside each: positive, negative, neutral; each dict in insertion order). -/
def allEntries : List Entry :=
  -- financial_lexicon['positive']
  [⟨.financial, .positive, "أرباح", 3⟩, ⟨.financial, .positive, "ربح", 3⟩,
   ⟨.financial, .positive, "مكاسب", 3⟩, ⟨.financial, .positive, "نمو", 3⟩,
   ⟨.financial, .positive, "نجاح", 3⟩, ⟨.financial, .positive, "قياسية", 3⟩,
   ⟨.financial, .positive, "توزيعات", 2⟩, ⟨.financial, .positive, "ازدهار", 3⟩,
   ⟨.financial, .positive, "تقدم", 2⟩, ⟨.financial, .positive, "إنجاز", 3⟩,
   ⟨.financial, .positive, "فائض", 2⟩, ⟨.financial, .positive, "تفوق", 2⟩,
   ⟨.financial, .positive, "ممتاز", 3⟩, ⟨.financial, .positive, "انتعاش", 3⟩,
   ⟨.financial, .positive, "إقبال كبير", 3⟩,
   ⟨.financial, .positive, "ارتفاع", 1⟩, ⟨.financial, .positive, "زيادة", 1⟩,
   ⟨.financial, .positive, "تحسن", 1⟩, ⟨.financial, .positive, "إيجابي", 1⟩,
   ⟨.financial, .positive, "قوي", 1⟩, ⟨.financial, .positive, "مرتفع", 1⟩,
   ⟨.financial, .positive, "توسع", 1⟩, ⟨.financial, .positive, "استثمار", 1⟩,
   ⟨.financial, .positive, "فرص", 1⟩, ⟨.financial, .positive, "تطور", 1⟩,
   -- financial_lexicon['negative']
   ⟨.financial, .negative, "خسائر", 3⟩, ⟨.financial, .negative, "خسارة", 3⟩,
   ⟨.financial, .negative, "هبوط", 3⟩, ⟨.financial, .negative, "أزمة", 3⟩,
   ⟨.financial, .negative, "عجز", 3⟩, ⟨.financial, .negative, "ركود", 3⟩,
   ⟨.financial, .negative, "تدهور", 3⟩, ⟨.financial, .negative, "إفلاس", 3⟩,
   ⟨.financial, .negative, "انهيار", 3⟩, ⟨.financial, .negative, "فشل", 3⟩,
   ⟨.financial, .negative, "انخفاض", 1⟩, ⟨.financial, .negative, "تراجع", 1⟩,
   ⟨.financial, .negative, "مخاطر", 1⟩, ⟨.financial, .negative, "تحذير", 1⟩,
   ⟨.financial, .negative, "مخاوف", 1⟩, ⟨.financial, .negative, "تحديات", 1⟩,
   ⟨.financial, .negative, "ضعف", 1⟩, ⟨.financial, .negative, "سلبي", 1⟩,
   ⟨.financial, .negative, "انكماش", 2⟩, ⟨.financial, .negative, "تباطؤ", 2⟩,
   ⟨.financial, .negative, "مشاكل", 1⟩, ⟨.financial, .negative, "صعوبات", 1⟩,
   ⟨.financial, .negative, "قلق", 1⟩, ⟨.financial, .negative, "تهديد", 2⟩,
   ⟨.financial, .negative, "سوء", 2⟩,
   -- financial_lexicon['neutral']
   ⟨.financial, .neutral, "تقرير", 1⟩, ⟨.financial, .neutral, "إعلان", 1⟩,
   ⟨.financial, .neutral, "اجتماع", 1⟩, ⟨.financial, .neutral, "مناقشة", 1⟩,
   ⟨.financial, .neutral, "دراسة", 1⟩, ⟨.financial, .neutral, "تحليل", 1⟩,
   ⟨.financial, .neutral, "استقرار", 1⟩, ⟨.financial, .neutral, "ثبات", 1⟩,
   ⟨.financial, .neutral, "مراجعة", 1⟩, ⟨.financial, .neutral, "تقييم", 1⟩,
   ⟨.financial, .neutral, "بيان", 1⟩, ⟨.financial, .neutral, "إصدار", 1⟩,
   ⟨.financial, .neutral, "نشر", 1⟩, ⟨.financial, .neutral, "عرض", 1⟩,
   ⟨.financial, .neutral, "توضيح", 1⟩,
   -- islamic_terms['positive']
   ⟨.islamic, .positive, "حلال", 2⟩, ⟨.islamic, .positive, "متوافق مع الشريعة", 3⟩,
   ⟨.islamic, .positive, "شرعي", 2⟩, ⟨.islamic, .positive, "صكوك ناجحة", 3⟩,
   ⟨.islamic, .positive, "توافق شرعي", 2⟩,
   -- islamic_terms['negative']
   ⟨.islamic, .negative, "ربا", 3⟩, ⟨.islamic, .negative, "حرام", 3⟩,
   ⟨.islamic, .negative, "مخالف للشريعة", 3⟩, ⟨.islamic, .negative, "غير شرعي", 3⟩,
   ⟨.islamic, .negative, "محظور", 2⟩,
   -- islamic_terms['neutral']
   ⟨.islamic, .neutral, "شريعة", 1⟩, ⟨.islamic, .neutral, "فتوى", 1⟩,
   ⟨.islamic, .neutral, "هيئة شرعية", 1⟩, ⟨.islamic, .neutral, "صكوك", 1⟩,
   ⟨.islamic, .neutral, "مرابحة", 1⟩, ⟨.islamic, .neutral, "مضاربة", 1⟩,
   ⟨.islamic, .neutral, "تورق", 1⟩]

/-- `self.negation_words`. -/
def negationWords : List (List Char) :=
  ["لا", "ليس", "لم", "لن", "غير", "عدم", "دون", "بدون", "ما"].map String.toList

/-- `self.intensifiers`, in dict insertion order (the loop breaks at the
first intensifier found in the text). -/
def intensifiersList : List (String × ℚ) :=
  [("جداً", 3/2), ("كثيراً", 13/10), ("للغاية", 3/2), ("تماماً", 7/5),
   ("بشكل كبير", 7/5), ("بشدة", 7/5), ("جدا", 3/2), ("حاد", 7/5)]

/-- Arabic character normalization applied by `preprocess_text` via
`re.sub`: alef variants to bare alef, final-ya to ya, ta-marbuta to ha. -/
def normChar (c : Char) : Char :=
  if c = 'إ' ∨ c = 'أ' ∨ c = 'آ' ∨ c = 'ا' then 'ا'
  else if c = 'ى' then 'ي'
  else if c = 'ة' then 'ه'
  else c

/-- `preprocess_text`: collapse whitespace (`' '.join(text.split())`), then
normalize Arabic character variants. -/
def preprocess_text (l : List Char) : List Char :=
  (spaceJoin (pySplit l)).map normChar

/-- `check_negation(text_words, term_word_index, window)`: any negation word
in the window of tokens immediately preceding the match. -/
def check_negation (textWords : List (List Char)) (termWordIndex window : Nat) : Bool :=
  ((textWords.take termWordIndex).drop (termWordIndex - window)).any
    (fun w => w ∈ negationWords)

/-- The intensifier loop: the first configured intensifier phrase present
anywhere in the processed text multiplies the weight; then `break`. -/
def applyIntensifiers (processed : List Char) (w : ℚ) : ℚ :=
  match intensifiersList.find? (fun p => substrB p.1.toList processed) with
  | some p => w * p.2
  | none => w

structure Scores where
  pos : ℚ
  neg : ℚ
  neu : ℚ
deriving DecidableEq, Repr

def Scores.get (s : Scores) : Senti → ℚ
  | .positive => s.pos
  | .negative => s.neg
  | .neutral => s.neu

def Scores.total (s : Scores) : ℚ := s.pos + s.neg + s.neu

structure Matched where
  pos : List String
  neg : List String
  neu : List String
deriving DecidableEq, Repr

/-- The `(scores, matched_terms)` pair threaded through the lexicon loop. -/
structure ScoreState where
  scores : Scores
  matched : Matched
deriving DecidableEq, Repr

def initScoreState : ScoreState := ⟨⟨0, 0, 0⟩, ⟨[], [], []⟩⟩

/-- Add `w` to the bucket of `c` and append `tag` to its matched list. -/
def addTerm (st : ScoreState) (c : Senti) (w : ℚ) (tag : String) : ScoreState :=
  match c with
  | .positive => ⟨{ st.scores with pos := st.scores.pos + w },
                  { st.matched with pos := st.matched.pos ++ [tag] }⟩
  | .negative => ⟨{ st.scores with neg := st.scores.neg + w },
                  { st.matched with neg := st.matched.neg ++ [tag] }⟩
  | .neutral => ⟨{ st.scores with neu := st.scores.neu + w },
                 { st.matched with neu := st.matched.neu ++ [tag] }⟩

/-- The body of the lexicon loop of `calculate_sentiment_score` for one
`(lexicon_type, sentiment, term, weight)` entry. -/
def processEntry (processed : List Char) (words : List (List Char))
    (st : ScoreState) (e : Entry) : ScoreState :=
  match findBoundaryMatch e.term.toList processed with
  | none => st
  | some termStartPosition =>
      let termWordIndex := (pySplit (processed.take termStartPosition)).length
      let isNegated := check_negation words termWordIndex 3
      let currentWeight := applyIntensifiers processed e.weight
      if isNegated then
        -- `target_sentiment = 'negative' if sentiment == 'positive' else 'positive'`
        let target : Senti := if e.senti = .positive then .negative else .positive
        addTerm st target currentWeight ("NOT " ++ e.term)
      else
        let termTag := match e.lex with
          | .islamic => "[Islamic] " ++ e.term
          | .financial => e.term
        addTerm st e.senti currentWeight termTag

/-- `calculate_sentiment_score`. -/
def calculate_sentiment_score (text : String) : ScoreState :=
  let processed := preprocess_text text.toList
  let processedWords := pySplit processed
  allEntries.foldl (processEntry processed processedWords) initScoreState

inductive Level | high | medium | low
deriving DecidableEq, Repr

/-- `max(scores, key=scores.get)` over the dict with insertion order
`positive, negative, neutral`: Python's `max` returns the first key
attaining the maximum. -/
def decideLabel (s : Scores) : Senti :=
  if s.neg ≤ s.pos ∧ s.neu ≤ s.pos then .positive
  else if s.neu ≤ s.neg then .negative
  else .neutral

structure SentimentResult where
  label : Senti
  /-- The internal `confidence_score` variable (exact). -/
  confidenceScore : ℚ
  /-- The `'confidence'` dict field, `round(confidence_score, 3)`. -/
  confidence : ℚ
  scores : Scores
  matched : Matched
  level : Level
deriving DecidableEq, Repr

/-- `predict_sentiment`. -/
def predict_sentiment (text : String) : SentimentResult :=
  let st := calculate_sentiment_score text
  let s := st.scores
  let totalScore := s.total
  let finalSentiment := if totalScore = 0 then Senti.neutral else decideLabel s
  let confidenceScore : ℚ :=
    if totalScore = 0 then 1/2 else s.get (decideLabel s) / totalScore
  { label := finalSentiment
    confidenceScore := confidenceScore
    confidence := pyRound3 confidenceScore
    scores := s
    matched := st.matched
    level := if 3/4 < confidenceScore then .high
             else if 11/20 < confidenceScore then .medium
             else .low }

/-! ## Batch evaluator (`analyze_dataset` core loop) -/

/-- One parsed dataset record: `item.get('text','')` and
`item.get('label','')`. -/
structure EvalItem where
  text : String
  label : String
deriving DecidableEq, Repr

structure PredRecord where
  text : String
  expected : String
  predicted : String
  confidence : ℚ
deriving DecidableEq, Repr

structure EvalState where
  results : List PredRecord
  correct : Nat
  /-- The three-by-three confusion matrix, `confusion[actual][predicted]`. -/
  confusion : Senti → Senti → Nat

def initEvalState : EvalState := ⟨[], 0, fun _ _ => 0⟩

def bumpConfusion (m : Senti → Senti → Nat) (a p : Senti) : Senti → Senti → Nat :=
  fun a2 p2 => if a2 = a ∧ p2 = p then m a2 p2 + 1 else m a2 p2

/-- The body of the `for i, item in enumerate(data)` loop: skip when text or
lower-cased expected label is empty; otherwise predict, record, update the
confusion matrix when the expected label is one of the three tracked
labels, and count a correct prediction. -/
def evalStep (st : EvalState) (item : EvalItem) : EvalState :=
  let text := item.text
  let expectedLabel := pyLowerS item.label
  if text = "" ∨ expectedLabel = "" then st
  else
    let predictionResult := predict_sentiment text
    let predictedLabel := predictionResult.label.str
    let st1 : EvalState :=
      { st with results := st.results ++
          [⟨text, expectedLabel, predictedLabel, predictionResult.confidence⟩] }
    let st2 : EvalState :=
      match sentiOfString expectedLabel with
      | some actual =>
          { st1 with confusion := bumpConfusion st1.confusion actual predictionResult.label }
      | none => st1
    if predictedLabel = expectedLabel then { st2 with correct := st2.correct + 1 }
    else st2

structure ClassMetrics where
  precision : ℚ
  recallScore : ℚ
  f1 : ℚ
deriving DecidableEq, Repr

structure EvalReport where
  accuracy : ℚ
  totalExamples : Nat
  correctPredictions : Nat
  confusion : Senti → Senti → Nat
  classMetrics : Senti → ClassMetrics
  resultsBreakdown : List PredRecord

def sentiList : List Senti := [.positive, .negative, .neutral]

/-- Per-class precision / recall / F1 from the confusion matrix, with the
explicit zero-denominator guards of the source; each rounded to 3 places. -/
def classMetricsOf (confusion : Senti → Senti → Nat) (c : Senti) : ClassMetrics :=
  let tp : ℚ := confusion c c
  let predictedSum : ℚ := ((sentiList.map (fun o => confusion o c)).sum : Nat)
  let actualSum : ℚ := ((sentiList.map (fun o => confusion c o)).sum : Nat)
  let precision := if 0 < predictedSum then tp / predictedSum else 0
  let recallScore := if 0 < actualSum then tp / actualSum else 0
  let f1 := if 0 < precision + recallScore then
    2 * (precision * recallScore) / (precision + recallScore) else 0
  ⟨pyRound3 precision, pyRound3 recallScore, pyRound3 f1⟩

/-- `analyze_dataset`, from the parsed record list onward (file loading and
JSON parsing are an external boundary; on failure the source returns an
empty dict before reaching this loop). `accuracy` divides by
`total_examples = len(data)` and is rounded to 3 places. -/
def analyze_dataset (data : List EvalItem) : EvalReport :=
  let totalExamples := data.length
  let final := data.foldl evalStep initEvalState
  let accuracy : ℚ :=
    if 0 < totalExamples then (final.correct : ℚ) / (totalExamples : ℚ) else 0
  { accuracy := pyRound3 accuracy
    totalExamples := totalExamples
    correctPredictions := final.correct
    confusion := final.confusion
    classMetrics := classMetricsOf final.confusion
    resultsBreakdown := final.results }

/-! ## Event detector (`src/ml/saudi_event_detector.py`) -/

inductive Importance | low | high | critical
deriving DecidableEq, Repr

def Importance.toNat : Importance → Nat
  | .low => 0
  | .high => 1
  | .critical => 2

inductive Phase | generic | saudi | islamic
deriving DecidableEq, Repr

/-- One `(event_type, keywords)` pair together with which of the three
keyword maps it comes from. -/
structure Check where
  phase : Phase
  name : String
  keywords : List String
deriving DecidableEq, Repr

structure EventResult where
  generic : List String
  saudi : List String
  islamic : List String
  importance : Importance
  priority : Nat
deriving DecidableEq, Repr

def initEvents : EventResult := ⟨[], [], [], .low, 0⟩

/-- `self.generic_events`, in dict insertion order. -/
def genericChecks : List Check :=
  [⟨.generic, "merger", ["merge", "acquisition", "acquire", "takeover"]⟩,
   ⟨.generic, "ipo", ["ipo", "initial public offering", "going public"]⟩,
   ⟨.generic, "earnings", ["earnings", "profit", "loss", "revenue"]⟩,
   ⟨.generic, "regulatory", ["fine", "penalty", "compliance", "violation"]⟩]

/-- `self.saudi_events`, in dict insertion order. -/
def saudiChecks : List Check :=
  [⟨.saudi, "sukuk_issuance", ["sukuk", "islamic bond", "صكوك"]⟩,
   ⟨.saudi, "sharia_ruling", ["sharia", "fatwa", "halal", "شريعة", "فتوى"]⟩,
   ⟨.saudi, "vision_2030", ["vision 2030", "neom", "red sea project", "رؤية ٢٠٣٠"]⟩,
   ⟨.saudi, "oil_update", ["opec", "oil price", "crude", "barrel"]⟩,
   ⟨.saudi, "saudi_regulation", ["sama", "cma", "tadawul rule", "هيئة السوق"]⟩,
   ⟨.saudi, "giga_projects",
     ["qiddiya", "the line", "oxagon", "trojena", "sindala",
      "القدية", "ذا لاين", "أوكساجون", "تروجينا", "سندالة",
      "neom bay", "amaala", "diriyah gate", "roshn"]⟩,
   ⟨.saudi, "interest_rates",
     ["سعر الفائدة", "repo rate", "sama rate decision",
      "reverse repo", "معدل الريبو", "قرار ساما"]⟩]

def sukukDefaultKeywords : List String :=
  ["sukuk default", "تخلف عن سداد الصكوك", "تأخر السداد", "missed payment",
   "إعادة هيكلة الصكوك"]

/-- `self.islamic_alerts`, in dict insertion order. -/
def islamicChecks : List Check :=
  [⟨.islamic, "riba_concern", ["riba", "interest rate", "ربا"]⟩,
   ⟨.islamic, "zakat_announcement", ["zakat", "زكاة"]⟩,
   ⟨.islamic, "shariah_compliance",
     ["shariah compliant", "shariah board", "متوافق مع الشريعة"]⟩,
   ⟨.islamic, "sukuk_default", sukukDefaultKeywords⟩]

/-- The whole pass of `detect_events`: the three keyword maps scanned in
source order. -/
def eventChecks : List Check := genericChecks ++ saudiChecks ++ islamicChecks

/-- `self.event_priority`. -/
def eventPriority (s : String) : Option Nat :=
  if s = "interest_rates" then some 10
  else if s = "sukuk_default" then some 9
  else if s = "saudi_regulation" then some 8
  else if s = "giga_projects" then some 7
  else if s = "oil_update" then some 6
  else if s = "vision_2030" then some 5
  else none

/-- `self.event_priority.get(event_type, 1)`. -/
def basePriority (s : String) : Nat := (eventPriority s).getD 1

/-- The per-keyword containment test: generic events check only the
lower-cased text (`keyword in text_lower`); Saudi and Islamic checks use
`keyword in text_lower or keyword in text`. -/
def matchKw (t tl : List Char) (ph : Phase) (kw : String) : Bool :=
  match ph with
  | .generic => substrB kw.toList tl
  | _ => substrB kw.toList tl || substrB kw.toList t

/-- One `for event_type, keywords in ...` iteration: if any keyword of the
category matches (the inner loop breaks at the first), record the category
and apply the phase's importance/priority update. -/
def evStep (t tl : List Char) (st : EventResult) (c : Check) : EventResult :=
  if c.keywords.any (matchKw t tl c.phase) then
    match c.phase with
    | .generic => { st with generic := st.generic ++ [c.name] }
    | .saudi =>
        { st with saudi := st.saudi ++ [c.name], importance := .high,
                  priority := st.priority + basePriority c.name }
    | .islamic =>
        { st with islamic := st.islamic ++ [c.name], importance := .critical,
                  priority := st.priority + (if c.name = "sukuk_default" then 10 else 0) }
  else st

/-- `detect_events`. -/
def detect_events (text : String) : EventResult :=
  let t := text.toList
  let tl := pyLowerL t
  eventChecks.foldl (evStep t tl) initEvents

/-- The sequence of intermediate states of one `detect_events` pass, one per
category check (first element is the initial state). -/
def passStates (text : String) : List EventResult :=
  let t := text.toList
  let tl := pyLowerL t
  eventChecks.scanl (evStep t tl) initEvents

/-- Step ordering for one pass: the priority score never decreases and the
importance tier never moves backwards in the order low, high, critical. -/
def evLe (a b : EventResult) : Prop :=
  a.priority ≤ b.priority ∧ a.importance.toNat ≤ b.importance.toNat

/-! ## Entity extractor (`src/ml/saudi_entity_extractor.py`) -/

/-- `_is_arabic_keyword`: any character in U+0600–U+06FF. -/
def isArabicKeyword (s : String) : Bool :=
  s.toList.any (fun c => 0x600 ≤ c.toNat && c.toNat ≤ 0x6FF)

/-- One entity produced by the external spaCy NER (out of scope; passed in
as an oracle). -/
structure SpacyEnt where
  label : String
  text : String

structure EntityBag where
  organizations : List String
  locations : List String
  people : List String
  money : List String
  islamic_finance : List String
  saudi_specific : List String
  regulators : List String
  vision_2030 : List String
deriving DecidableEq, Repr

def emptyBag : EntityBag := ⟨[], [], [], [], [], [], [], []⟩

/-- `self.company_keyword_to_standard_name_map`, as (variant, standard)
pairs. The source iterates its key set, whose order Python leaves
unspecified; insertion order is used here (the final dedup-and-sort step
makes the output order-independent). -/
def companyList : List (String × String) :=
  [("aramco", "Saudi Aramco"), ("saudi aramco", "Saudi Aramco"),
   ("أرامكو", "Saudi Aramco"), ("أرامكو السعودية", "Saudi Aramco"),
   ("sabic", "SABIC"), ("سابك", "SABIC"),
   ("stc", "STC"), ("saudi telecom", "STC"), ("الاتصالات السعودية", "STC"),
   ("saudi telecommunication company", "STC"),
   ("al rajhi", "Al Rajhi Bank"), ("rajhi bank", "Al Rajhi Bank"),
   ("مصرف الراجحي", "Al Rajhi Bank"), ("alrajhi bank", "Al Rajhi Bank"),
   ("alinma", "Alinma Bank"), ("alinma bank", "Alinma Bank"),
   ("مصرف الإنماء", "Alinma Bank"),
   ("samba", "Saudi National Bank (SNB)"), ("samba financial", "Saudi National Bank (SNB)"),
   ("سامبا", "Saudi National Bank (SNB)"), ("snb", "Saudi National Bank (SNB)"),
   ("saudi national bank", "Saudi National Bank (SNB)"),
   ("البنك الأهلي", "Saudi National Bank (SNB)"),
   ("البنك الأهلي السعودي", "Saudi National Bank (SNB)"),
   ("riyad bank", "Riyad Bank"), ("بنك الرياض", "Riyad Bank"),
   ("maaden", "Maaden"), ("معادن", "Maaden"),
   ("saudi arabian mining company", "Maaden"),
   ("almarai", "Almarai"), ("المراعي", "Almarai")]

/-- `self.saudi_regulators` (a Python set; listed in source order, see
`companyList` on set-iteration order). -/
def regulatorList : List String :=
  ["sama", "saudi central bank", "مؤسسة النقد",
   "cma", "capital market authority", "هيئة السوق المالية",
   "tadawul", "saudi exchange", "تداول"]

/-- `self.islamic_terms` (English term, Arabic term). -/
def islamicTermList : List (String × String) :=
  [("sukuk", "صكوك"), ("sharia", "شريعة"), ("zakat", "زكاة"),
   ("riba", "ربا"), ("murabaha", "مرابحة"), ("halal", "حلال"),
   ("islamic banking", "المصرفية الإسلامية"),
   ("sharia compliant", "متوافق مع الشريعة")]

/-- `self.vision_2030_keywords` (a Python set; source order). -/
def visionList : List String :=
  ["vision 2030", "رؤية 2030", "neom", "نيوم",
   "red sea project", "مشروع البحر الأحمر", "qiddiya", "القدية",
   "saudi green initiative", "مبادرة السعودية الخضراء"]

structure NerAcc where
  orgs : List String
  locs : List String
  ppl : List String
  mny : List String

/-- The spaCy `for ent in doc.ents` loop body: strip, skip empty, route by
label with a membership guard before each append. -/
def nerStep (acc : NerAcc) (ent : SpacyEnt) : NerAcc :=
  let s := pyStripS ent.text
  if s = "" then acc
  else if ent.label = "ORG" ∧ s ∉ acc.orgs then { acc with orgs := acc.orgs ++ [s] }
  else if (ent.label = "GPE" ∨ ent.label = "LOC") ∧ s ∉ acc.locs then
    { acc with locs := acc.locs ++ [s] }
  else if ent.label = "PERSON" ∧ s ∉ acc.ppl then { acc with ppl := acc.ppl ++ [s] }
  else if ent.label = "MONEY" ∧ s ∉ acc.mny then { acc with mny := acc.mny ++ [s] }
  else acc

/-- The dual-script containment check used by the keyword scans: Arabic
variants search the original text, others the lower-cased copy. -/
def dualScriptHit (t tl : List Char) (kw : String) : Bool :=
  if isArabicKeyword kw then substrB kw.toList t
  else substrB (pyLowerS kw).toList tl

structure CompAcc where
  orgs : List String
  saudiSp : List String
  found : List String

/-- The standardized-company loop body: on a hit not yet recorded, append
the standard name to `saudi_specific`, and to `organizations` unless a
case-insensitive near-duplicate is already present. -/
def companyStep (t tl : List Char) (acc : CompAcc) (p : String × String) : CompAcc :=
  let std := p.2
  if dualScriptHit t tl p.1 ∧ std ∉ acc.found then
    let similarPresent := acc.orgs.any (fun org =>
      substrB (pyLowerS std).toList (pyLowerS org).toList ||
        substrB (pyLowerS org).toList (pyLowerS std).toList)
    { orgs := if similarPresent then acc.orgs else acc.orgs ++ [std],
      saudiSp := acc.saudiSp ++ [std],
      found := acc.found ++ [std] }
  else acc

/-- The Islamic-terms loop body: English term in the lower-cased text, else
Arabic term in the original; the English key is what gets recorded. -/
def islamicStep (t tl : List Char) (acc : List String × List String)
    (p : String × String) : List String × List String :=
  if substrB (pyLowerS p.1).toList tl ∧ p.1 ∉ acc.2 then
    (acc.1 ++ [p.1], acc.2 ++ [p.1])
  else if substrB p.2.toList t ∧ p.1 ∉ acc.2 then
    (acc.1 ++ [p.1], acc.2 ++ [p.1])
  else acc

/-- The regulator scan body: dual-script hit, recorded upper-cased. -/
def regStep (t tl : List Char) (acc : List String × List String)
    (kw : String) : List String × List String :=
  if dualScriptHit t tl kw ∧ pyUpperS kw ∉ acc.2 then
    (acc.1 ++ [pyUpperS kw], acc.2 ++ [pyUpperS kw])
  else acc

/-- The Vision-2030 scan body: dual-script hit, recorded title-cased. -/
def visStep (t tl : List Char) (acc : List String × List String)
    (kw : String) : List String × List String :=
  if dualScriptHit t tl kw ∧ pyTitleS kw ∉ acc.2 then
    (acc.1 ++ [pyTitleS kw], acc.2 ++ [pyTitleS kw])
  else acc

/-- The final `sorted(list(set(...)))` applied to every category. -/
def dedupSort (l : List String) : List String :=
  List.insertionSort (· ≤ ·) l.dedup

/-- `extract_entities` on a string input (the isinstance guard for
non-string inputs is handled by `extract_entities_py` below). `ner` is the
external spaCy model; `sar` is the regex engine's `findall` for the fixed
currency pattern — both external capabilities, passed as oracles. -/
def extract_entities (ner : String → List SpacyEnt) (sar : String → List String)
    (text : String) : EntityBag :=
  if pyStripS text = "" then emptyBag
  else
    let t := text.toList
    let tl := pyLowerL t
    let nerAcc := (ner text).foldl nerStep ⟨[], [], [], []⟩
    let comp := companyList.foldl (companyStep t tl) ⟨nerAcc.orgs, [], []⟩
    let isl := islamicTermList.foldl (islamicStep t tl) ([], [])
    let regs := regulatorList.foldl (regStep t tl) ([], [])
    let vis := visionList.foldl (visStep t tl) ([], [])
    let mny := (sar text).foldl (fun m s => if s ∈ m then m else m ++ [s]) nerAcc.mny
    { organizations := dedupSort comp.orgs
      locations := dedupSort nerAcc.locs
      people := dedupSort nerAcc.ppl
      money := dedupSort mny
      islamic_finance := dedupSort isl.1
      saudi_specific := dedupSort comp.saudiSp
      regulators := dedupSort regs.1
      vision_2030 := dedupSort vis.1 }

/-! ## Invalid-input behaviour (`PyInput` wrappers) -/

/-- A Python argument that is either a string or some non-string value
(`None`, a number, ...). -/
inductive PyInput
  | strInput (s : String)
  | nonStr

inductive PyErr | attributeError
deriving DecidableEq, Repr

/-- `detect_events` begins with `text.lower()`, which raises
`AttributeError` on a non-string argument. -/
def detect_events_py : PyInput → Except PyErr EventResult
  | .strInput s => .ok (detect_events s)
  | .nonStr => .error .attributeError

/-- The sentiment path begins with `text.split()` inside
`preprocess_text`, which raises `AttributeError` on a non-string. -/
def predict_sentiment_py : PyInput → Except PyErr SentimentResult
  | .strInput s => .ok (predict_sentiment s)
  | .nonStr => .error .attributeError

/-- `extract_entities` guards `isinstance(text, str)` first and returns the
empty structure for non-strings. -/
def extract_entities_py (ner : String → List SpacyEnt) (sar : String → List String) :
    PyInput → Except PyErr EntityBag
  | .strInput s => .ok (extract_entities ner sar s)
  | .nonStr => .ok emptyBag

/-! ## Derived definitions used by the statements -/

/-- Total number of recorded matched-term tags across the three buckets. -/
def ScoreState.tagCount (st : ScoreState) : Nat :=
  st.matched.pos.length + st.matched.neg.length + st.matched.neu.length

/-- A dataset record is scored (not skipped) when both its text and its
lower-cased expected label are non-empty. -/
def scoredB (it : EvalItem) : Bool :=
  !(it.text == "" || pyLowerS it.label == "")

/-- A record is scored and the prediction agrees with the expected label. -/
def scoredCorrectB (it : EvalItem) : Bool :=
  scoredB it && ((predict_sentiment it.text).label.str == pyLowerS it.label)

/-- A record is scored, its lower-cased expected label parses to `a`, and
the prediction is `p`: exactly the records that increment the confusion
cell `confusion[a][p]`. -/
def confusionCellB (a p : Senti) (it : EvalItem) : Bool :=
  scoredB it && (sentiOfString (pyLowerS it.label) == some a) &&
    ((predict_sentiment it.text).label == p)

/-- The priority contribution C4 claims for a matched Islamic-alert
category: 10 for `sukuk_default`, the category's base weight otherwise. -/
def islamicClaimContribution (c : String) : Nat :=
  if c = "sukuk_default" then 10 else basePriority c

def sortedNodup (l : List String) : Prop :=
  l.Nodup ∧ l.Sorted (· ≤ ·)

/-- Every category of the bag is duplicate-free and lexicographically
sorted. -/
def EntityBag.wellFormed (b : EntityBag) : Prop :=
  sortedNodup b.organizations ∧ sortedNodup b.locations ∧ sortedNodup b.people ∧
    sortedNodup b.money ∧ sortedNodup b.islamic_finance ∧
    sortedNodup b.saudi_specific ∧ sortedNodup b.regulators ∧
    sortedNodup b.vision_2030

/-- The lexicon entries whose term has a word-boundary-anchored occurrence
in the processed text (the entries that contribute to the fold). -/
def matchedEntries (text : String) : List Entry :=
  allEntries.filter
    (fun e => (findBoundaryMatch e.term.toList (preprocess_text text.toList)).isSome)

/-! ## Helper lemmas -/

theorem searchFrom_some {p : Nat → Bool} :
    ∀ {fuel i r : Nat}, searchFrom p i fuel = some r →
      p r = true ∧ i ≤ r ∧ ∀ j, i ≤ j → j < r → p j = false := by
  intro fuel
  induction fuel with
  | zero => intro i r h; simp [searchFrom] at h
  | succ n ih =>
    intro i r h
    rw [searchFrom] at h
    cases hpi : p i with
    | true =>
        simp only [hpi, if_true] at h
        cases h
        exact ⟨hpi, Nat.le_refl _, fun j h1 h2 => absurd (Nat.lt_of_le_of_lt h1 h2) (Nat.lt_irrefl _)⟩
    | false =>
        simp only [hpi, Bool.false_eq_true, if_false] at h
        obtain ⟨h1, h2, h3⟩ := ih h
        refine ⟨h1, Nat.le_trans (Nat.le_succ i) h2, fun j hj1 hj2 => ?_⟩
        rcases Nat.eq_or_lt_of_le hj1 with rfl | hlt
        · exact hpi
        · exact h3 j hlt hj2

theorem searchFrom_none {p : Nat → Bool} :
    ∀ (fuel i : Nat), (∀ j, i ≤ j → j < i + fuel → p j = false) →
      searchFrom p i fuel = none := by
  intro fuel
  induction fuel with
  | zero => intro i _; rfl
  | succ n ih =>
    intro i h
    rw [searchFrom]
    simp only [h i (Nat.le_refl _) (by omega), Bool.false_eq_true, if_false]
    exact ih (i + 1) (fun j h1 h2 => h j (by omega) (by omega))


set_option maxRecDepth 40000

theorem decideLabel_max (s : Scores) : ∀ c, s.get c ≤ s.get (decideLabel s) := by
  intro c
  unfold decideLabel
  split_ifs with h1 h2
  · cases c with
    | positive => exact le_refl _
    | negative => exact h1.1
    | neutral => exact h1.2
  · simp only [not_and_or, not_le] at h1
    cases c with
    | positive =>
        rcases h1 with h | h
        · exact le_of_lt h
        · exact le_of_lt (lt_of_lt_of_le h h2)
    | negative => exact le_refl _
    | neutral => exact h2
  · simp only [not_and_or, not_le] at h1
    simp only [not_le] at h2
    cases c with
    | positive =>
        rcases h1 with h | h
        · exact le_of_lt (lt_trans h h2)
        · exact le_of_lt h
    | negative => exact le_of_lt h2
    | neutral => exact le_refl _

theorem decideLabel_first (s : Scores) :
    ∀ c, s.get c = s.get (decideLabel s) → (decideLabel s).idx ≤ c.idx := by
  intro c hc
  unfold decideLabel at *
  split_ifs at * with h1 h2
  · exact Nat.zero_le _
  · simp only [not_and_or, not_le] at h1
    cases c with
    | positive =>
        simp only [Scores.get] at hc
        rcases h1 with h | h
        · exact absurd hc (ne_of_lt h)
        · exact absurd hc (ne_of_lt (lt_of_lt_of_le h h2))
    | negative => exact le_refl _
    | neutral => exact Nat.le_succ _
  · simp only [not_and_or, not_le] at h1
    simp only [not_le] at h2
    cases c with
    | positive =>
        simp only [Scores.get] at hc
        rcases h1 with h | h
        · exact absurd hc (ne_of_lt (lt_trans h h2))
        · exact absurd hc (ne_of_lt h)
    | negative =>
        simp only [Scores.get] at hc
        exact absurd hc (ne_of_lt h2)
    | neutral => exact le_refl _

/-! ## The claims -/

/-- C1: for every scores map produced by the Sentiment Scorer, a zero total
yields label neutral with confidence exactly 1/2; otherwise the label is
the category with the maximum score (earliest in the fixed order positive,
negative, neutral on a tie), the confidence is the label's score divided by
the total, and the confidence tier is high above 3/4, medium above 11/20,
and low otherwise. -/
theorem label_decision_correct (text : String) :
    ((calculate_sentiment_score text).scores.total = 0 →
      (predict_sentiment text).label = .neutral ∧
        (predict_sentiment text).confidenceScore = 1/2) ∧
    ((calculate_sentiment_score text).scores.total ≠ 0 →
      (∀ c, (calculate_sentiment_score text).scores.get c ≤
        (calculate_sentiment_score text).scores.get (predict_sentiment text).label) ∧
      (∀ c, (calculate_sentiment_score text).scores.get c =
          (calculate_sentiment_score text).scores.get (predict_sentiment text).label →
        (predict_sentiment text).label.idx ≤ c.idx) ∧
      (predict_sentiment text).confidenceScore =
        (calculate_sentiment_score text).scores.get (predict_sentiment text).label /
          (calculate_sentiment_score text).scores.total) ∧
    (predict_sentiment text).level =
      (if 3/4 < (predict_sentiment text).confidenceScore then .high
       else if 11/20 < (predict_sentiment text).confidenceScore then .medium
       else .low) := by
  refine ⟨fun h => ?_, fun h => ?_, ?_⟩
  · constructor <;> simp [predict_sentiment, h]
  · have hl : (predict_sentiment text).label =
        decideLabel (calculate_sentiment_score text).scores := by
      simp [predict_sentiment, h]
    have hc : (predict_sentiment text).confidenceScore =
        (calculate_sentiment_score text).scores.get
            (decideLabel (calculate_sentiment_score text).scores) /
          (calculate_sentiment_score text).scores.total := by
      simp [predict_sentiment, h]
    rw [hl, hc]
    exact ⟨decideLabel_max _, decideLabel_first _, rfl⟩
  · rfl

/-- Witness for C1: the empty text has zero total and yields neutral with
confidence one half; the single-neutral-term text has a nonzero total. -/
theorem label_decision_correct_witness :
    ((predict_sentiment "").label = .neutral ∧
      (predict_sentiment "").confidenceScore = 1/2) ∧
    ((∀ c, (calculate_sentiment_score "تقرير").scores.get c ≤
        (calculate_sentiment_score "تقرير").scores.get (predict_sentiment "تقرير").label) ∧
      (∀ c, (calculate_sentiment_score "تقرير").scores.get c =
          (calculate_sentiment_score "تقرير").scores.get (predict_sentiment "تقرير").label →
        (predict_sentiment "تقرير").label.idx ≤ c.idx) ∧
      (predict_sentiment "تقرير").confidenceScore =
        (calculate_sentiment_score "تقرير").scores.get (predict_sentiment "تقرير").label /
          (calculate_sentiment_score "تقرير").scores.total) :=
  ⟨(label_decision_correct "").1 (by with_unfolding_all decide),
   (label_decision_correct "تقرير").2.1 (by with_unfolding_all decide)⟩

/-- C2 (amended): for every matched lexicon term found to be negated, its
intensifier-adjusted weight is added to the positive bucket unless the term
is positive, in which case it goes to the negative bucket — so positive and
negative swap, but a negated neutral-category term is moved to the positive
bucket rather than staying neutral — and the term is recorded in that
bucket's matched list prefixed with the negation marker NOT. -/
theorem negated_term_flip (text : String) (st : ScoreState) (e : Entry) (i : Nat)
    (hm : findBoundaryMatch e.term.toList (preprocess_text text.toList) = some i)
    (hn : check_negation (pySplit (preprocess_text text.toList))
            ((pySplit ((preprocess_text text.toList).take i)).length) 3 = true) :
    processEntry (preprocess_text text.toList) (pySplit (preprocess_text text.toList)) st e =
      addTerm st (if e.senti = .positive then .negative else .positive)
        (applyIntensifiers (preprocess_text text.toList) e.weight) ("NOT " ++ e.term) := by
  unfold processEntry
  rw [hm]
  simp only [hn, if_true]

/-- Witness for C2: the negation word لا precedes the neutral term تقرير,
whose weight is routed to the positive bucket with the NOT marker. -/
theorem negated_term_flip_witness :
    processEntry (preprocess_text (String.toList "لا تقرير"))
        (pySplit (preprocess_text (String.toList "لا تقرير"))) initScoreState
        ⟨.financial, .neutral, "تقرير", 1⟩ =
      addTerm initScoreState
        (if (Senti.neutral) = .positive then .negative else .positive)
        (applyIntensifiers (preprocess_text (String.toList "لا تقرير")) 1)
        ("NOT " ++ "تقرير") :=
  negated_term_flip "لا تقرير" initScoreState ⟨.financial, .neutral, "تقرير", 1⟩ 3
    (by decide) (by decide)

/-- Counterexample to C2 as stated: on the text لا تقرير the negated
neutral term تقرير does not stay in the neutral bucket — its weight lands
in the positive bucket and the NOT-tagged term is recorded there. -/
theorem negated_neutral_counterexample :
    (calculate_sentiment_score "لا تقرير").scores.pos = 1 ∧
    (calculate_sentiment_score "لا تقرير").scores.neu = 0 ∧
    (calculate_sentiment_score "لا تقرير").matched.pos = ["NOT تقرير"] ∧
    (calculate_sentiment_score "لا تقرير").matched.neu = [] := by
  with_unfolding_all decide

theorem evalStep_correct (st : EvalState) (it : EvalItem) :
    (evalStep st it).correct = st.correct + (if scoredCorrectB it then 1 else 0) := by
  unfold evalStep scoredCorrectB scoredB
  by_cases hskip : it.text = "" ∨ pyLowerS it.label = ""
  · rw [if_pos hskip]
    have hb : (!(it.text == "" || pyLowerS it.label == "")) = false := by
      rcases hskip with h | h <;> simp [h]
    rw [hb]
    simp
  · rw [if_neg hskip]
    push_neg at hskip
    have hb : (!(it.text == "" || pyLowerS it.label == "")) = true := by
      simp [hskip.1, hskip.2]
    rw [hb]
    cases hi : sentiOfString (pyLowerS it.label) <;>
      by_cases hp : (predict_sentiment it.text).label.str = pyLowerS it.label <;>
        simp [hi, hp]

theorem foldl_evalStep_correct :
    ∀ (l : List EvalItem) (st : EvalState),
      (l.foldl evalStep st).correct = st.correct + l.countP scoredCorrectB := by
  intro l
  induction l with
  | nil => intro st; simp
  | cons it its ih =>
      intro st
      rw [List.foldl_cons, ih, evalStep_correct, List.countP_cons]
      by_cases h : scoredCorrectB it
      · simp only [h, if_true]
        omega
      · simp only [h, Bool.false_eq_true, if_false]
        omega

theorem bumpConfusion_apply (m : Senti → Senti → Nat) (a0 p0 a p : Senti) :
    bumpConfusion m a0 p0 a p = m a p + (if a0 = a ∧ p0 = p then 1 else 0) := by
  unfold bumpConfusion
  by_cases h : a = a0 ∧ p = p0
  · rcases h with ⟨rfl, rfl⟩
    simp
  · rw [if_neg h, if_neg (fun hc => h ⟨hc.1.symm, hc.2.symm⟩)]
    simp

theorem evalStep_confusion (st : EvalState) (it : EvalItem) (a p : Senti) :
    (evalStep st it).confusion a p =
      st.confusion a p + (if confusionCellB a p it then 1 else 0) := by
  unfold evalStep confusionCellB scoredB
  by_cases hskip : it.text = "" ∨ pyLowerS it.label = ""
  · rw [if_pos hskip]
    have hb : (!(it.text == "" || pyLowerS it.label == "")) = false := by
      rcases hskip with h | h <;> simp [h]
    rw [hb]
    simp
  · rw [if_neg hskip]
    push_neg at hskip
    have hb : (!(it.text == "" || pyLowerS it.label == "")) = true := by
      simp [hskip.1, hskip.2]
    rw [hb]
    cases hi : sentiOfString (pyLowerS it.label) with
    | none =>
        by_cases hp : (predict_sentiment it.text).label.str = pyLowerS it.label <;>
          simp [hi, hp]
    | some actual =>
        by_cases hp : (predict_sentiment it.text).label.str = pyLowerS it.label <;>
          simp [hi, hp, bumpConfusion_apply, Bool.and_eq_true, beq_iff_eq]

theorem foldl_evalStep_confusion (a p : Senti) :
    ∀ (l : List EvalItem) (st : EvalState),
      (l.foldl evalStep st).confusion a p =
        st.confusion a p + l.countP (confusionCellB a p) := by
  intro l
  induction l with
  | nil => intro st; simp
  | cons it its ih =>
      intro st
      rw [List.foldl_cons, ih, evalStep_confusion, List.countP_cons]
      by_cases h : confusionCellB a p it
      · simp only [h, if_true]
        omega
      · simp only [h, Bool.false_eq_true, if_false]
        omega

/-- C3 (amended): pairs with empty text or empty expected label are skipped
and contribute neither correct predictions nor confusion-matrix counts
(every confusion cell counts exactly the scored records with that
actual/predicted pair), but the accuracy denominator is the total number of
input records (`total_examples = len(data)`), not the number of scored
items. -/
theorem accuracy_total_denominator (data : List EvalItem) :
    (analyze_dataset data).totalExamples = data.length ∧
    (analyze_dataset data).correctPredictions = data.countP scoredCorrectB ∧
    (∀ a p, (analyze_dataset data).confusion a p = data.countP (confusionCellB a p)) ∧
    (analyze_dataset data).accuracy =
      pyRound3 (if 0 < data.length then
        (data.countP scoredCorrectB : ℚ) / (data.length : ℚ) else 0) := by
  have hc : (List.foldl evalStep initEvalState data).correct = data.countP scoredCorrectB := by
    rw [foldl_evalStep_correct]
    exact Nat.zero_add _
  refine ⟨rfl, hc, fun a p => ?_, ?_⟩
  · show (List.foldl evalStep initEvalState data).confusion a p = _
    rw [foldl_evalStep_confusion]
    exact Nat.zero_add _
  · show pyRound3 _ = _
    rw [hc]

/-- Counterexample to C3 as stated: a two-record dataset whose first record
is skipped (empty text) and whose second is scored and correct gives
accuracy 1/2 — correct divided by the total record count — whereas the
claim's correct-over-scored ratio would be 1. -/
theorem accuracy_counterexample :
    (analyze_dataset [⟨"", "positive"⟩, ⟨"تقرير", "neutral"⟩]).accuracy = 1/2 ∧
    (analyze_dataset [⟨"", "positive"⟩, ⟨"تقرير", "neutral"⟩]).correctPredictions = 1 ∧
    List.countP scoredB [⟨"", "positive"⟩, ⟨"تقرير", "neutral"⟩] = 1 ∧
    ((1 : ℚ)/2) ≠ 1/1 := by
  with_unfolding_all decide

/-- C4 (amended): any Islamic-alert category match sets `event_importance`
to critical (overriding high), but its contribution to `priority_score` is
the fixed bonus 10 only for the `sukuk_default` alert; every other matched
Islamic-alert category contributes nothing. -/
theorem islamic_alert_step (t tl : List Char) (st : EventResult)
    (name : String) (kws : List String)
    (h : kws.any (matchKw t tl .islamic) = true) :
    evStep t tl st ⟨.islamic, name, kws⟩ =
      { st with islamic := st.islamic ++ [name], importance := .critical,
                priority := st.priority + (if name = "sukuk_default" then 10 else 0) } := by
  unfold evStep
  simp only [h, if_true]

/-- Witness for C4: the `zakat_announcement` alert fires on the text zakat,
escalates the importance to critical and adds nothing to the priority. -/
theorem islamic_alert_step_witness :
    evStep (String.toList "zakat") (pyLowerL (String.toList "zakat")) initEvents
        ⟨.islamic, "zakat_announcement", ["zakat", "زكاة"]⟩ =
      { initEvents with islamic := initEvents.islamic ++ ["zakat_announcement"],
                        importance := .critical,
                        priority := initEvents.priority +
                          (if "zakat_announcement" = "sukuk_default" then 10 else 0) } :=
  islamic_alert_step (String.toList "zakat") (pyLowerL (String.toList "zakat"))
    initEvents "zakat_announcement" ["zakat", "زكاة"] (by decide)

/-- Counterexample to C4 as stated: the text zakat matches the Islamic
alert `zakat_announcement` and the result is critical, yet its priority
score is 0, not the positive base weight the claim assigns to non-sukuk
Islamic alerts. -/
theorem islamic_priority_counterexample :
    (detect_events "zakat").islamic = ["zakat_announcement"] ∧
    (detect_events "zakat").importance = .critical ∧
    (detect_events "zakat").priority = 0 ∧
    islamicClaimContribution "zakat_announcement" = 1 ∧
    (detect_events "zakat").priority ≠ islamicClaimContribution "zakat_announcement" := by
  decide

/-- C6: any text containing a `sukuk_default` keyword (in the source's
containment sense: in the lower-cased or the original text) yields
importance critical and a priority score of at least 10. -/
theorem sukuk_default_postcondition (text : String)
    (h : sukukDefaultKeywords.any (fun kw =>
          substrB kw.toList (pyLowerL text.toList) || substrB kw.toList text.toList) = true) :
    (detect_events text).importance = .critical ∧ 10 ≤ (detect_events text).priority := by
  unfold detect_events
  have hsplit : eventChecks =
      (genericChecks ++ saudiChecks ++
        [⟨.islamic, "riba_concern", ["riba", "interest rate", "ربا"]⟩,
         ⟨.islamic, "zakat_announcement", ["zakat", "زكاة"]⟩,
         ⟨.islamic, "shariah_compliance",
           ["shariah compliant", "shariah board", "متوافق مع الشريعة"]⟩]) ++
      [⟨.islamic, "sukuk_default", sukukDefaultKeywords⟩] := by
    simp [eventChecks, genericChecks, saudiChecks, islamicChecks]
  rw [hsplit, List.foldl_append, List.foldl_cons, List.foldl_nil]
  unfold evStep
  have hc : (sukukDefaultKeywords.any (matchKw text.toList (pyLowerL text.toList) .islamic)) = true := by
    simpa [matchKw] using h
  simp only [hc, if_true]
  exact ⟨trivial, by omega⟩

/-- Witness for C6: the text sukuk default contains a `sukuk_default`
keyword; the detector reports critical importance and priority 11. -/
theorem sukuk_default_postcondition_witness :
    (detect_events "sukuk default").importance = .critical ∧
      10 ≤ (detect_events "sukuk default").priority :=
  sukuk_default_postcondition "sukuk default" (by decide)

theorem importance_toNat_le_two (i : Importance) : i.toNat ≤ 2 := by
  cases i <;> simp [Importance.toNat]

theorem evLe_refl (a : EventResult) : evLe a a := ⟨le_refl _, le_refl _⟩

theorem evStep_mono_islamic (t tl : List Char) (st : EventResult) (c : Check)
    (h : c.phase = .islamic) : evLe st (evStep t tl st c) := by
  obtain ⟨ph, name, kws⟩ := c
  cases h
  unfold evStep
  by_cases hc : kws.any (matchKw t tl .islamic) = true
  · simp only [hc, if_true]
    exact ⟨Nat.le_add_right _ _, importance_toNat_le_two _⟩
  · simp only [Bool.not_eq_true] at hc
    simp only [hc, Bool.false_eq_true, if_false]
    exact evLe_refl _

theorem evStep_mono_early (t tl : List Char) (st : EventResult) (c : Check)
    (h : st.importance.toNat ≤ 1) : evLe st (evStep t tl st c) := by
  obtain ⟨ph, name, kws⟩ := c
  unfold evStep
  by_cases hc : kws.any (matchKw t tl ph) = true
  · simp only [hc, if_true]
    cases ph
    · exact evLe_refl _
    · exact ⟨Nat.le_add_right _ _, h⟩
    · exact ⟨Nat.le_add_right _ _, importance_toNat_le_two _⟩
  · simp only [Bool.not_eq_true] at hc
    simp only [hc, Bool.false_eq_true, if_false]
    exact evLe_refl _

theorem evStep_keeps_early (t tl : List Char) (st : EventResult) (c : Check)
    (h : st.importance.toNat ≤ 1) (hph : c.phase ≠ .islamic) :
    (evStep t tl st c).importance.toNat ≤ 1 := by
  obtain ⟨ph, name, kws⟩ := c
  unfold evStep
  by_cases hc : kws.any (matchKw t tl ph) = true
  · simp only [hc, if_true]
    cases ph
    · exact h
    · simp [Importance.toNat]
    · exact absurd rfl hph
  · simp only [Bool.not_eq_true] at hc
    simp only [hc, Bool.false_eq_true, if_false]
    exact h

theorem scanl_head? {α β : Type} (f : β → α → β) (b : β) (l : List α) :
    (List.scanl f b l).head? = some b := by
  cases l
  · rw [List.scanl_nil]; rfl
  · rw [List.scanl_cons]; rfl

theorem chain'_scanl_islamic (t tl : List Char) :
    ∀ (l : List Check), (∀ c ∈ l, c.phase = .islamic) →
      ∀ st : EventResult, List.Chain' evLe (List.scanl (evStep t tl) st l) := by
  intro l
  induction l with
  | nil => intro _ st; rw [List.scanl_nil]; exact List.chain'_singleton _
  | cons c cs ih =>
      intro h st
      rw [List.scanl_cons]
      simp only [List.singleton_append]
      refine List.Chain'.cons'
        (ih (fun d hd => h d (List.mem_cons_of_mem _ hd)) _) ?_
      intro y hy
      rw [scanl_head?] at hy
      obtain rfl := Option.mem_some_iff.mp hy
      exact evStep_mono_islamic t tl st c (h c (List.mem_cons_self _ _))

theorem chain'_scanl_split (t tl : List Char) :
    ∀ (a : List Check), (∀ c ∈ a, c.phase ≠ .islamic) →
      ∀ (b : List Check), (∀ c ∈ b, c.phase = .islamic) →
      ∀ st : EventResult, st.importance.toNat ≤ 1 →
        List.Chain' evLe (List.scanl (evStep t tl) st (a ++ b)) := by
  intro a
  induction a with
  | nil => intro _ b hb st _; exact chain'_scanl_islamic t tl b hb st
  | cons c cs ih =>
      intro ha b hb st hst
      rw [List.cons_append, List.scanl_cons]
      simp only [List.singleton_append]
      refine List.Chain'.cons'
        (ih (fun d hd => ha d (List.mem_cons_of_mem _ hd)) b hb _
          (evStep_keeps_early t tl st c hst (ha c (List.mem_cons_self _ _)))) ?_
      intro y hy
      rw [scanl_head?] at hy
      obtain rfl := Option.mem_some_iff.mp hy
      exact evStep_mono_early t tl st c hst

/-- C7: within a single detection pass the priority score never decreases
and the importance tier never moves backwards (in the order low, high,
critical) from each intermediate state to the next. -/
theorem event_pass_monotone (text : String) :
    List.Chain' evLe (passStates text) := by
  unfold passStates
  have h : eventChecks = (genericChecks ++ saudiChecks) ++ islamicChecks := by
    simp [eventChecks, List.append_assoc]
  rw [h]
  exact chain'_scanl_split _ _ (genericChecks ++ saudiChecks) (by decide)
    islamicChecks (by decide) initEvents (by decide)

theorem scanl_getLast? {α β : Type} (f : β → α → β) :
    ∀ (l : List α) (b : β), (List.scanl f b l).getLast? = some (List.foldl f b l) := by
  intro l
  induction l with
  | nil => intro b; rfl
  | cons a as ih =>
      intro b
      rw [List.scanl_cons, List.foldl_cons, List.singleton_append]
      rw [← ih (f b a)]
      cases hs : List.scanl f (f b a) as with
      | nil => exact absurd hs (by cases as <;> simp [List.scanl_nil, List.scanl_cons])
      | cons x xs => rw [List.getLast?_cons_cons]

/-- The final state of the recorded pass is exactly the detector's
result. -/
theorem passStates_last (text : String) :
    (passStates text).getLast? = some (detect_events text) := by
  unfold passStates detect_events
  exact scanl_getLast? _ eventChecks initEvents

/-- Counterexample to C5 as stated: on a non-string input the Event
Detector raises AttributeError (from `text.lower()`) instead of returning
the empty event bag, and the sentiment path raises as well (from
`text.split()`). -/
theorem invalid_input_counterexample :
    detect_events_py .nonStr = .error .attributeError ∧
    predict_sentiment_py .nonStr = .error .attributeError ∧
    detect_events_py .nonStr ≠ .ok initEvents :=
  ⟨rfl, rfl, fun h => Except.noConfusion h⟩

/-- C5 (amended): for empty text every component returns its empty default
(all-empty entity bag; empty event bag with importance low and priority 0;
neutral sentiment with confidence exactly 1/2); for a non-string input only
the Entity Standardizer returns its empty default — the Event Detector and
the sentiment path raise AttributeError. -/
theorem invalid_input_containment (ner : String → List SpacyEnt) (sar : String → List String) :
    extract_entities_py ner sar .nonStr = .ok emptyBag ∧
    extract_entities_py ner sar (.strInput "") = .ok emptyBag ∧
    detect_events_py (.strInput "") = .ok initEvents ∧
    predict_sentiment_py (.strInput "") =
      .ok ⟨.neutral, 1/2, 1/2, ⟨0, 0, 0⟩, ⟨[], [], []⟩, .low⟩ ∧
    detect_events_py .nonStr = .error .attributeError ∧
    predict_sentiment_py .nonStr = .error .attributeError := by
  refine ⟨rfl, rfl, congrArg Except.ok (by decide), congrArg Except.ok ?_, rfl, rfl⟩
  with_unfolding_all decide

theorem dedupSort_sortedNodup (l : List String) : sortedNodup (dedupSort l) := by
  constructor
  · exact (List.perm_insertionSort _ _).nodup_iff.mpr l.nodup_dedup
  · exact List.sorted_insertionSort _ _

/-- C8: every category sequence of the EntityBag returned on any input is
duplicate-free and lexicographically sorted. -/
theorem entity_bag_sorted_nodup (ner : String → List SpacyEnt)
    (sar : String → List String) (text : String) :
    (extract_entities ner sar text).wellFormed := by
  unfold extract_entities
  split
  · exact ⟨⟨List.nodup_nil, List.sorted_nil⟩, ⟨List.nodup_nil, List.sorted_nil⟩,
      ⟨List.nodup_nil, List.sorted_nil⟩, ⟨List.nodup_nil, List.sorted_nil⟩,
      ⟨List.nodup_nil, List.sorted_nil⟩, ⟨List.nodup_nil, List.sorted_nil⟩,
      ⟨List.nodup_nil, List.sorted_nil⟩, ⟨List.nodup_nil, List.sorted_nil⟩⟩
  · exact ⟨dedupSort_sortedNodup _, dedupSort_sortedNodup _, dedupSort_sortedNodup _,
      dedupSort_sortedNodup _, dedupSort_sortedNodup _, dedupSort_sortedNodup _,
      dedupSort_sortedNodup _, dedupSort_sortedNodup _⟩

/-- C9: a lexicon term every one of whose occurrences in the processed text
fails the word-boundary test (it occurs only inside longer words) is not
matched and contributes nothing to any score bucket or matched-terms
list. -/
theorem substring_only_no_contribution (text : String) (e : Entry) (st : ScoreState)
    (_he : e ∈ allEntries)
    (h : ∀ i, i < (preprocess_text text.toList).length + 1 →
          matchesAt e.term.toList (preprocess_text text.toList) i = true →
          boundMatchB e.term.toList (preprocess_text text.toList) i = false) :
    findBoundaryMatch e.term.toList (preprocess_text text.toList) = none ∧
    processEntry (preprocess_text text.toList) (pySplit (preprocess_text text.toList)) st e
      = st := by
  have hall : ∀ i, i < (preprocess_text text.toList).length + 1 →
      boundMatchB e.term.toList (preprocess_text text.toList) i = false := by
    intro i hi
    cases hb : boundMatchB e.term.toList (preprocess_text text.toList) i with
    | false => rfl
    | true =>
        have hb' := hb
        unfold boundMatchB at hb'
        simp only [Bool.and_eq_true] at hb'
        have hm := hb'.1.1
        have hf := h i hi hm
        rw [hf] at hb
        exact hb.symm
  have hnone : findBoundaryMatch e.term.toList (preprocess_text text.toList) = none := by
    unfold findBoundaryMatch
    exact searchFrom_none _ 0 (fun j h1 h2 => hall j (by omega))
  refine ⟨hnone, ?_⟩
  unfold processEntry
  rw [hnone]

/-- Witness for C9: ربا occurs in أرباحا (normalized ارباحا) only inside
the longer word, is never boundary-matched, and its lexicon entry leaves
the score state untouched. -/
theorem substring_only_no_contribution_witness :
    matchesAt (String.toList "ربا") (preprocess_text (String.toList "أرباحا")) 1 = true ∧
    findBoundaryMatch (String.toList "ربا") (preprocess_text (String.toList "أرباحا")) = none ∧
    processEntry (preprocess_text (String.toList "أرباحا"))
        (pySplit (preprocess_text (String.toList "أرباحا"))) initScoreState
        ⟨.islamic, .negative, "ربا", 3⟩ = initScoreState :=
  ⟨by decide,
   (substring_only_no_contribution "أرباحا" ⟨.islamic, .negative, "ربا", 3⟩ initScoreState
      (by decide) (by decide)).1,
   (substring_only_no_contribution "أرباحا" ⟨.islamic, .negative, "ربا", 3⟩ initScoreState
      (by decide) (by decide)).2⟩

theorem addTerm_tagCount (st : ScoreState) (c : Senti) (w : ℚ) (tag : String) :
    (addTerm st c w tag).tagCount = st.tagCount + 1 := by
  cases c <;> simp [addTerm, ScoreState.tagCount] <;> omega

theorem processEntry_tagCount (p : List Char) (w : List (List Char))
    (st : ScoreState) (e : Entry) :
    (processEntry p w st e).tagCount =
      st.tagCount + (if (findBoundaryMatch e.term.toList p).isSome then 1 else 0) := by
  unfold processEntry
  cases hm : findBoundaryMatch e.term.toList p with
  | none => simp
  | some i =>
      simp only [Option.isSome_some, if_true]
      split
      · rw [addTerm_tagCount]
      · rw [addTerm_tagCount]

theorem foldl_processEntry_tagCount (p : List Char) (w : List (List Char)) :
    ∀ (l : List Entry) (st : ScoreState),
      (l.foldl (processEntry p w) st).tagCount =
        st.tagCount + l.countP (fun e => (findBoundaryMatch e.term.toList p).isSome) := by
  intro l
  induction l with
  | nil => intro st; simp
  | cons e es ih =>
      intro st
      rw [List.foldl_cons, ih, processEntry_tagCount, List.countP_cons]
      by_cases h : (findBoundaryMatch e.term.toList p).isSome <;> simp [h] <;> omega

/-- C10: each lexicon entry contributes at most one matched-term tag (the
total tag count equals the number of boundary-matched entries — one each);
lexicon terms are pairwise distinct, so each term contributes at most once;
and the matcher returns the first boundary-anchored occurrence, so only
that position feeds the negation-window check. -/
theorem per_term_single_contribution (text : String) :
    (calculate_sentiment_score text).tagCount = (matchedEntries text).length ∧
    (allEntries.map Entry.term).Nodup ∧
    (∀ (term processed : List Char) (i : Nat),
       findBoundaryMatch term processed = some i →
         boundMatchB term processed i = true ∧
         ∀ j, j < i → boundMatchB term processed j = false) := by
  refine ⟨?_, by decide, ?_⟩
  · unfold calculate_sentiment_score matchedEntries
    rw [foldl_processEntry_tagCount, List.countP_eq_length_filter]
    exact Nat.zero_add _
  · intro term processed i h
    unfold findBoundaryMatch at h
    obtain ⟨h1, _, h3⟩ := searchFrom_some h
    exact ⟨h1, fun j hj => h3 j (Nat.zero_le _) hj⟩

/-- Witness for C10: in ربح ربح the term ربح occurs twice yet yields a
single matched tag, and the match is at the first occurrence, index 0. -/
theorem per_term_single_contribution_witness :
    boundMatchB (String.toList "ربح") (preprocess_text (String.toList "ربح ربح")) 0 = true ∧
    (∀ j, j < 0 →
      boundMatchB (String.toList "ربح") (preprocess_text (String.toList "ربح ربح")) j = false) ∧
    (calculate_sentiment_score "ربح ربح").tagCount = 1 :=
  ⟨((per_term_single_contribution "ربح ربح").2.2 (String.toList "ربح")
      (preprocess_text (String.toList "ربح ربح")) 0 (by decide)).1,
   ((per_term_single_contribution "ربح ربح").2.2 (String.toList "ربح")
      (preprocess_text (String.toList "ربح ربح")) 0 (by decide)).2,
   by decide⟩
